import Mathlib

/-!
Formal model of two components of the qwen-code repository:

* `packages/core/src/tools/summarize-file.ts` — the SummarizeFile tool
  (`validateToolParams` and `execute`), with its collaborators
  (schema validator, workspace context, file service, content acquisition,
  telemetry) abstracted as an explicit environment of functions, and the
  observable side effects (content-acquisition calls, metric records,
  backend calls) tracked in the returned outcome.

* `packages/core/src/core/prompts.ts` — `getCoreSystemPrompt`, with the
  process environment, filesystem and imported tool-name constants
  abstracted as an explicit environment; a thrown error is modelled as
  `Except.error` and `fs.writeFileSync` side effects as a list of
  (path, content) write events.

JavaScript string primitives used by the source (`toLowerCase`, `trim`,
`split`, `join`, truthiness, `||`) are modelled by executable functions on
`String.data` below.
-/

/-- JavaScript `String.prototype.toLowerCase` (per-character lowering). -/
def jsToLowerCase (s : String) : String :=
  ⟨s.data.map Char.toLower⟩

/-- JavaScript `String.prototype.trim`: drop leading and trailing whitespace. -/
def jsTrim (s : String) : String :=
  ⟨((s.data.dropWhile Char.isWhitespace).reverse.dropWhile Char.isWhitespace).reverse⟩

/-- Helper for `jsSplit`: walk the characters, cutting at the separator. -/
def jsSplitAux (sep : Char) : List Char → List Char → List String
  | [], acc => [⟨acc.reverse⟩]
  | c :: rest, acc =>
    if c = sep then ⟨acc.reverse⟩ :: jsSplitAux sep rest []
    else jsSplitAux sep rest (c :: acc)

/-- JavaScript `String.prototype.split` with a single-character separator
(`''.split(sep)` gives `['']`, so the result is never empty). -/
def jsSplit (sep : Char) (s : String) : List String :=
  jsSplitAux sep s.data []

/-- JavaScript `Array.prototype.join`. -/
def jsJoin (sep : String) : List String → String
  | [] => ""
  | [x] => x
  | x :: y :: rest => x ++ sep ++ jsJoin sep (y :: rest)

/-- JavaScript `a || b` for strings: `b` when `a` is the empty string (falsy). -/
def jsOrString (a b : String) : String :=
  if a = "" then b else a

/-- JavaScript truthiness of an optional boolean (`undefined` and `false`
are falsy). -/
def jsTruthyOpt : Option Bool → Bool
  | some true => true
  | _ => false

/-- JavaScript truthiness of an optional string (`undefined` and `''`
are falsy). -/
def jsTruthyStrOpt : Option String → Bool
  | none => false
  | some s => s != ""

/-! ## SummarizeFile tool (`packages/core/src/tools/summarize-file.ts`) -/

/-- The `llmContent` payload of a result: a string, or an opaque non-string
`Part` value (e.g. inline binary data), which `typeof x === 'string'`
distinguishes. -/
inductive PartUnion where
  | str : String → PartUnion
  | part : Nat → PartUnion
deriving DecidableEq

/-- JavaScript `llmContent || ''`: the empty string stays empty (falsy),
every other value passes through. -/
def jsOrEmptyContent (p : PartUnion) : PartUnion :=
  match p with
  | PartUnion.str s => if s = "" then PartUnion.str "" else PartUnion.str s
  | other => other

/-- Result shape of the external `processSingleFileContent` utility. -/
structure ProcessedFileReadResult where
  llmContent : PartUnion
  returnDisplay : String
  error : Option String
deriving DecidableEq

/-- Result shape returned by the tool. -/
structure ToolResult where
  llmContent : PartUnion
  returnDisplay : String
deriving DecidableEq

/-- Operation tag of `recordFileOperationMetric` (telemetry). -/
inductive FileOperation where
  | create
  | read
  | update
deriving DecidableEq

/-- Arguments of one `recordFileOperationMetric` call. -/
structure FileOperationMetric where
  operation : FileOperation
  lines : Option Nat
  mimetype : Option String
  extension : String
deriving DecidableEq

/-- Parameters of the SummarizeFile tool (`SummarizeFileToolParams`):
`snippets` and `name_only` are optional booleans. -/
structure SummarizeFileToolParams where
  absolute_path : String
  snippets : Option Bool
  name_only : Option Bool
deriving DecidableEq

/-- The tool's collaborators, abstracted as functions: the schema validator,
`path.isAbsolute`, the workspace context, the file service, `config`
accessors, `makeRelative`, `path.basename`, `path.extname`,
`processSingleFileContent` and `getSpecificMimeType`. -/
structure ToolEnv where
  schemaValidate : SummarizeFileToolParams → Option String
  isAbsolute : String → Bool
  isPathWithinWorkspace : String → Bool
  getDirectories : List String
  shouldGeminiIgnoreFile : String → Bool
  getTargetDir : String
  makeRelative : String → String → String
  basename : String → String
  extname : String → String
  processSingleFileContent :
    String → String → Option Nat → Option Nat → Option Bool → ProcessedFileReadResult
  getSpecificMimeType : String → Option String

/-- Outcome of one `execute` call: the returned `ToolResult` together with
the observable side effects — how many times content acquisition
(`processSingleFileContent`) ran, the metric records emitted, and how many
content-generation backend calls were made (this tool variant never makes
any; the field records that fact). -/
structure ExecOutcome where
  result : ToolResult
  acquisitionCalls : Nat
  metrics : List FileOperationMetric
  backendCalls : Nat
deriving DecidableEq

namespace SummarizeFileTool

/-- `SummarizeFileTool.validateToolParams`. -/
def validateToolParams (env : ToolEnv) (params : SummarizeFileToolParams) :
    Option String :=
  match env.schemaValidate params with
  | some errors => some errors
  | none =>
    let filePath := params.absolute_path
    if !(env.isAbsolute filePath) then
      some ("File path must be absolute, but was relative: " ++ filePath
        ++ ". You must provide an absolute path.")
    else if !(env.isPathWithinWorkspace filePath) then
      some ("File path must be within one of the workspace directories: "
        ++ jsJoin ", " env.getDirectories)
    else if env.shouldGeminiIgnoreFile params.absolute_path then
      some ("File path '" ++ filePath ++ "' is ignored by .geminiignore pattern(s).")
    else
      none

/-- `SummarizeFileTool.execute`. -/
def execute (env : ToolEnv) (params : SummarizeFileToolParams) : ExecOutcome :=
  match validateToolParams env params with
  | some validationError =>
    { result :=
        { llmContent :=
            PartUnion.str ("Error: Invalid parameters provided. Reason: " ++ validationError)
          returnDisplay := validationError }
      acquisitionCalls := 0
      metrics := []
      backendCalls := 0 }
  | none =>
    if jsTruthyOpt params.name_only then
      let relativePath := env.makeRelative params.absolute_path env.getTargetDir
      let fileName := env.basename params.absolute_path
      let fileExtension := env.extname params.absolute_path
      { result :=
          { llmContent :=
              PartUnion.str ("File: " ++ relativePath ++ "\nName: " ++ fileName
                ++ "\nExtension: " ++ fileExtension)
            returnDisplay := "File info: " ++ fileName }
        acquisitionCalls := 0
        metrics := []
        backendCalls := 0 }
    else
      let result :=
        env.processSingleFileContent params.absolute_path env.getTargetDir
          none none params.snippets
      if jsTruthyStrOpt result.error then
        { result :=
            { llmContent := PartUnion.str (result.error.getD "")
              returnDisplay := jsOrString result.returnDisplay "Error reading file" }
          acquisitionCalls := 1
          metrics := []
          backendCalls := 0 }
      else
        let lines : Option Nat :=
          match result.llmContent with
          | PartUnion.str s => some (jsSplit '\n' s).length
          | _ => none
        let mimetype := env.getSpecificMimeType params.absolute_path
        let metric : FileOperationMetric :=
          { operation := FileOperation.read
            lines := lines
            mimetype := mimetype
            extension := env.extname params.absolute_path }
        let llmContent :=
          if jsTruthyOpt params.snippets then
            match result.llmContent with
            | PartUnion.str s =>
              PartUnion.str ("[Relevant snippets from "
                ++ env.makeRelative params.absolute_path env.getTargetDir
                ++ "]\n\n" ++ s)
            | other => other
          else result.llmContent
        { result :=
            { llmContent := jsOrEmptyContent llmContent
              returnDisplay := jsOrString result.returnDisplay "" }
          acquisitionCalls := 1
          metrics := [metric]
          backendCalls := 0 }

end SummarizeFileTool

/-! ## Prompt assembly (`packages/core/src/core/prompts.ts`) -/

/-- Environment of `getCoreSystemPrompt`: the process environment variables,
the git detection of the current working directory, the filesystem
(existence test and file reading), the `path` module, the configuration
directory, and the imported tool-name constants interpolated into the
built-in template. -/
structure PromptEnv where
  GEMINI_SYSTEM_MD : Option String
  GEMINI_WRITE_SYSTEM_MD : Option String
  SANDBOX : Option String
  cwdIsGitRepo : Bool
  fileExists : String → Bool
  readFile : String → String
  resolve : String → String
  joinPath : String → String → String
  geminiConfigDir : String
  lsToolName : String
  editToolName : String
  globToolName : String
  grepToolName : String
  readFileToolName : String
  readManyFilesToolName : String
  shellToolName : String
  writeFileToolName : String
  memoryToolName : String
def seatbeltSandboxText : String :=
  "\n"
    ++ "# MacOS Seatbelt\n"
    ++ "You are running under macos seatbelt with limited file system and network access. If you encounter 'Operation not permitted' errors, it might be due to these restrictions."

def genericSandboxText : String :=
  "\n"
    ++ "# Sandbox\n"
    ++ "You are running in a sandbox container with limited file system and network access. If you encounter 'Operation not permitted' errors, it might be due to these restrictions."

def outsideSandboxText : String :=
  "\n"
    ++ "# Outside of Sandbox\n"
    ++ "You are running outside of a sandbox. Be extra careful with commands that modify the system."

def gitRepositoryFragment : String :=
  "\n"
    ++ "# Git Repository\n"
    ++ "- The current directory is a git repository.\n"
    ++ "- Before committing, use `git status`, `git diff HEAD`, and `git log -n 3` to understand the state of the repository.\n"
    ++ "- Propose a clear and concise commit message.\n"
    ++ "- After committing, run `git status` to confirm success.\n"
    ++ "- Never push changes unless explicitly asked.\n"

def gitExampleClosing : String :=
  "Would you like me to commit these changes?"

def sandboxFragment (sandbox : Option String) : String :=
  if sandbox = some "sandbox-exec" then seatbeltSandboxText
  else
    match sandbox with
    | some s => if s = "" then outsideSandboxText else genericSandboxText
    | none => outsideSandboxText

def promptHead (env : PromptEnv) : String :=
  "ou are an interactive CLI agent specializing in software engineering tasks. Your primary goal is to help users safely and efficiently, adhering strictly to the following instructions and utilizing your available tools.\n"
    ++ "\n"
    ++ "# Core Mandates\n"
    ++ "\n"
    ++ "- **Adhere to Conventions:** Rigorously follow existing project conventions. Analyze surrounding code, tests, and configuration before making changes.\n"
    ++ "- **Verify Libraries:** NEVER assume a library/framework is available. Verify its use in the project first.\n"
    ++ "- **Mimic Style:** Match the style, structure, and architectural patterns of existing code.\n"
    ++ "- **Idiomatic Code:** Ensure changes integrate naturally with the existing codebase.\n"
    ++ "- **Comments:** Add comments only for complex logic (the \"why\", not the \"what\"). Do not talk to the user in comments.\n"
    ++ "- **Proactive Actions:** Fulfill the user's request, including reasonable implied follow-up actions.\n"
    ++ "- **Confirm Ambiguity:** Do not expand the scope of a task without user confirmation.\n"
    ++ "- **Concise Explanations:** Do not provide summaries of your work unless asked.\n"
    ++ "- **No Reverting:** Do not revert changes unless they cause an error or the user asks you to.\n"
    ++ "\n"
    ++ "# Primary Workflows\n"
    ++ "\n"
    ++ "## Software Engineering Tasks\n"
    ++ "1.  **Understand:** Use '"
    ++ env.grepToolName
    ++ "', '"
    ++ env.globToolName
    ++ "', '"
    ++ env.readFileToolName
    ++ "', and '"
    ++ env.readManyFilesToolName
    ++ "' to understand the codebase.\n"
    ++ "2.  **Plan:** Create a plan. If it's complex, share a concise version with the user. Include unit tests in your plan.\n"
    ++ "3.  **Implement:** Use tools like '"
    ++ env.editToolName
    ++ "', '"
    ++ env.writeFileToolName
    ++ "', and '"
    ++ env.shellToolName
    ++ "' to execute the plan.\n"
    ++ "4.  **Verify:** Run tests and linters to verify your changes.\n"
    ++ "\n"
    ++ "## New Applications\n"
    ++ "1.  **Understand Requirements:** Analyze the user's request to identify core features and constraints. Ask clarifying questions if needed.\n"
    ++ "2.  **Propose Plan:** Present a high-level plan to the user, including technologies, features, and design approach.\n"
    ++ "    - **Websites (Frontend):** React (JavaScript/TypeScript) with Bootstrap CSS.\n"
    ++ "    - **Back-End APIs:** Node.js with Express.js or Python with FastAPI.\n"
    ++ "    - **Full-stack:** Next.js or Python (Django/Flask) with a React/Vue.js frontend.\n"
    ++ "    - **CLIs:** Python or Go.\n"
    ++ "    - **Mobile App:** Compose Multiplatform (Kotlin) or Flutter (Dart).\n"
    ++ "    - **Games:** HTML/CSS/JavaScript with Three.js (3D) or plain (2D).\n"
    ++ "3.  **User Approval:** Get user approval for the plan.\n"
    ++ "4.  **Implementation:** Implement the application, scaffolding with '"
    ++ env.shellToolName
    ++ "'. Create placeholder assets if needed.\n"
    ++ "5.  **Verify:** Review your work, fix bugs, and ensure the application builds and runs correctly.\n"
    ++ "6.  **Solicit Feedback:** Provide instructions on how to start the application and ask for feedback.\n"
    ++ "\n"
    ++ "# Operational Guidelines\n"
    ++ "\n"
    ++ "## Tone and Style (CLI Interaction)\n"
    ++ "- **Concise & Direct:** Be professional and to the point.\n"
    ++ "- **Minimal Output:** Aim for less than 3 lines of text per response.\n"
    ++ "- **Clarity:** Prioritize clarity when necessary.\n"
    ++ "- **No Chitchat:** Avoid conversational filler.\n"
    ++ "- **Formatting:** Use GitHub-flavored Markdown.\n"
    ++ "- **Tools vs. Text:** Use tools for actions, text for communication.\n"
    ++ "- **Inability to Fulfill:** If you can't do something, say so briefly.\n"
    ++ "\n"
    ++ "## Security and Safety Rules\n"
    ++ "- **Explain Critical Commands:** Before using '"
    ++ env.shellToolName
    ++ "' for modifications, briefly explain the command's purpose and impact.\n"
    ++ "- **Security First:** Never introduce code that exposes secrets.\n"
    ++ "\n"
    ++ "## Tool Usage\n"
    ++ "- **File Paths:** Always use absolute paths for file operations.\n"
    ++ "- **Parallelism:** Run independent tool calls in parallel.\n"
    ++ "- **Command Execution:** Use '"
    ++ env.shellToolName
    ++ "' for shell commands.\n"
    ++ "- **Background Processes:** Use `&` for long-running processes.\n"
    ++ "- **Interactive Commands:** Avoid interactive shell commands.\n"
    ++ "- **Remembering Facts:** Use the '"
    ++ env.memoryToolName
    ++ "' tool to remember user-specific facts or preferences when explicitly asked.\n"
    ++ "- **Respect User Confirmations:** If a user cancels a tool call, do not try it again unless they ask you to.\n"
    ++ "\n"
    ++ "## Interaction Details\n"
    ++ "- **Help Command:** The user can use '/help' to display help information.\n"
    ++ "- **Feedback:** The user can use '/bug' to report a bug or provide feedback.\n"
    ++ "\n"
    ++ sandboxFragment env.SANDBOX
    ++ "\n"
    ++ "\n"

def promptExamples (env : PromptEnv) : String :=
  "\n"
    ++ "\n"
    ++ "# Examples\n"
    ++ "<example>\n"
    ++ "user: 1 + 2\n"
    ++ "model: 3\n"
    ++ "</example>\n"
    ++ "\n"
    ++ "<example>\n"
    ++ "user: list files here.\n"
    ++ "model: [tool_call: "
    ++ env.lsToolName
    ++ " for path '/path/to/project']\n"
    ++ "</example>\n"
    ++ "\n"
    ++ "<example>\n"
    ++ "user: Refactor src/auth.py to use requests.\n"
    ++ "model: Okay, I can refactor 'src/auth.py'. First, I'll check for tests and dependencies.\n"
    ++ "[tool_call: "
    ++ env.globToolName
    ++ " for path 'tests/test_auth.py']\n"
    ++ "[tool_call: "
    ++ env.readFileToolName
    ++ " for absolute_path '/path/to/requirements.txt']\n"
    ++ "(After analysis)\n"
    ++ "Tests exist and 'requests' is a dependency. Here's the plan:\n"
    ++ "1. Replace 'urllib' with 'requests'.\n"
    ++ "2. Add error handling.\n"
    ++ "3. Remove unused imports.\n"
    ++ "4. Run linter and tests.\n"
    ++ "Should I proceed?\n"
    ++ "user: Yes\n"
    ++ "model:\n"
    ++ "[tool_call: "
    ++ env.writeFileToolName
    ++ " or "
    ++ env.editToolName
    ++ " to apply the refactoring to 'src/auth.py']\n"
    ++ "Refactoring complete. Running verification...\n"
    ++ "[tool_call: "
    ++ env.shellToolName
    ++ " for 'ruff check src/auth.py && pytest']\n"
    ++ "(After verification passes)\n"
    ++ "All checks passed.\n"

def promptTail : String :=
  "\n"
    ++ "</example>\n"
    ++ "\n"
    ++ "# Final Reminder\n"
    ++ "Your core function is efficient and safe assistance. Be concise but clear. Prioritize user control and project conventions. Use tools to gather information before acting. Keep going until the user's query is resolved"

/-- The built-in base prompt: the template literal of the source, assembled
from the literal chunks above with the interpolated tool names, the
three-way sandbox fragment and the two git-conditional pieces, then
trimmed (`.trim()`). The template's first character after the leading
newline (`Y`) and its last character before the trailing newline (`.`)
are kept as explicit chunks so the effect of the trim is provable. -/
def builtinBasePrompt (env : PromptEnv) : String :=
  jsTrim ("\n"
    ++ ("Y"
      ++ (promptHead env
        ++ (if env.cwdIsGitRepo then gitRepositoryFragment else "")
        ++ promptExamples env
        ++ (if env.cwdIsGitRepo then gitExampleClosing else "")
        ++ promptTail)
      ++ ".")
    ++ "\n")

/-- The default override file path:
`path.resolve(path.join(GEMINI_CONFIG_DIR, 'system.md'))`. -/
def defaultSystemMdPath (env : PromptEnv) : String :=
  env.resolve (env.joinPath env.geminiConfigDir "system.md")

/-- The override switch state computed by `getCoreSystemPrompt` from
`process.env.GEMINI_SYSTEM_MD`: whether the override is enabled
(`systemMdEnabled`) and the override file path (`systemMdPath`). The raw
value is lowercased first; a falsy (unset or empty) or `'0'`/`'false'`
value disables the override, `'1'`/`'true'` enables it at the default
path, and any other value enables it at `path.resolve` of the lowercased
value. -/
def systemMdState (env : PromptEnv) : Bool × String :=
  match env.GEMINI_SYSTEM_MD with
  | none => (false, defaultSystemMdPath env)
  | some raw =>
    let v := jsToLowerCase raw
    if v = "" then (false, defaultSystemMdPath env)
    else if v = "0" ∨ v = "false" then (false, defaultSystemMdPath env)
    else if v = "1" ∨ v = "true" then (true, defaultSystemMdPath env)
    else (true, env.resolve v)

/-- The trailing memory fragment: appended only when `userMemory` is a
truthy string whose trimmed form is non-empty. -/
def memorySuffix (userMemory : Option String) : String :=
  match userMemory with
  | none => ""
  | some s =>
    if s ≠ "" ∧ 0 < (jsTrim s).length then "\n\n---\n\n" ++ jsTrim s else ""

/-- The `fs.writeFileSync` calls performed for
`process.env.GEMINI_WRITE_SYSTEM_MD`: none when the switch is falsy or
`'0'`/`'false'`; a write of the base prompt to `systemMdPath` for
`'1'`/`'true'`; a write to `path.resolve` of the lowercased value
otherwise. -/
def writeSystemMdEvents (env : PromptEnv) (systemMdPath basePrompt : String) :
    List (String × String) :=
  match env.GEMINI_WRITE_SYSTEM_MD with
  | none => []
  | some raw =>
    let v := jsToLowerCase raw
    if v = "" then []
    else if v = "0" ∨ v = "false" then []
    else if v = "1" ∨ v = "true" then [(systemMdPath, basePrompt)]
    else [(env.resolve v, basePrompt)]

/-- `getCoreSystemPrompt`: `Except.error` models the thrown
`missing system prompt file` error; the `ok` payload is the returned
prompt string together with the list of file writes performed as side
effects. -/
def getCoreSystemPrompt (env : PromptEnv) (userMemory : Option String) :
    Except String (String × List (String × String)) :=
  let st := systemMdState env
  if st.1 && !(env.fileExists st.2) then
    Except.error ("missing system prompt file '" ++ st.2 ++ "'")
  else
    let basePrompt := if st.1 then env.readFile st.2 else builtinBasePrompt env
    Except.ok (basePrompt ++ memorySuffix userMemory,
      writeSystemMdEvents env st.2 basePrompt)

/-! ## Concrete environments for the witnesses and the counterexample -/

/-- A concrete collaborator environment for the SummarizeFile tool. -/
def toolEnvW : ToolEnv where
  schemaValidate := fun p =>
    if p.absolute_path = "" then some "params/absolute_path must be a string" else none
  isAbsolute := fun p =>
    match p.data with
    | '/' :: _ => true
    | _ => false
  isPathWithinWorkspace := fun p => p != "/etc/passwd"
  getDirectories := ["/ws", "/extra"]
  shouldGeminiIgnoreFile := fun p => p == "/ws/ignored.txt"
  getTargetDir := "/ws"
  makeRelative := fun p _ => ⟨p.data.drop 4⟩
  basename := fun p => ⟨(p.data.reverse.takeWhile (fun c => c != '/')).reverse⟩
  extname := fun p => if p == "/ws/a.txt" || p == "/ws/err.txt" then ".txt" else ""
  processSingleFileContent := fun p _ _ _ _ =>
    if p == "/ws/err.txt" then
      { llmContent := PartUnion.str ""
        returnDisplay := ""
        error := some "File read failure" }
    else
      { llmContent := PartUnion.str "line one\nline two"
        returnDisplay := "read ok"
        error := none }
  getSpecificMimeType := fun _ => some "text/plain"

/-- A concrete prompt-assembly environment: both switches unset, no sandbox,
not a git repository, an empty filesystem, identity `path.resolve`, and
the repository's tool names. -/
def promptEnvW : PromptEnv where
  GEMINI_SYSTEM_MD := none
  GEMINI_WRITE_SYSTEM_MD := none
  SANDBOX := none
  cwdIsGitRepo := false
  fileExists := fun _ => false
  readFile := fun _ => ""
  resolve := fun p => p
  joinPath := fun a b => a ++ "/" ++ b
  geminiConfigDir := ".qwen"
  lsToolName := "list_directory"
  editToolName := "edit"
  globToolName := "glob"
  grepToolName := "search_file_content"
  readFileToolName := "read_file"
  readManyFilesToolName := "read_many_files"
  shellToolName := "run_shell_command"
  writeFileToolName := "write_file"
  memoryToolName := "save_memory"

/-- A concrete environment on which the C4 claim as stated fails: the raw
switch value is `"FALSE"`, which is none of the four listed literals. -/
def promptEnvC4 : PromptEnv :=
  { promptEnvW with GEMINI_SYSTEM_MD := some "FALSE" }

/-- Override enabled at the default path, file absent. -/
def promptEnvC5 : PromptEnv :=
  { promptEnvW with GEMINI_SYSTEM_MD := some "1" }

/-- Override enabled at a custom path value. -/
def promptEnvC4custom : PromptEnv :=
  { promptEnvW with GEMINI_SYSTEM_MD := some "/custom/sys.md" }

/-- Write switch enabled (default target), read override off. -/
def promptEnvC8 : PromptEnv :=
  { promptEnvW with GEMINI_WRITE_SYSTEM_MD := some "1" }

/-- The rebuild environment after the C8 write: the read switch points at the
default path, which now exists and holds the written base prompt. -/
def promptEnvC8read : PromptEnv :=
  { promptEnvW with
      GEMINI_SYSTEM_MD := some ".qwen/system.md"
      fileExists := fun p => p == ".qwen/system.md"
      readFile := fun _ => builtinBasePrompt promptEnvC8 }

/-- Read switch at a custom path (file present), write switch `'true'`. -/
def promptEnvC10 : PromptEnv :=
  { promptEnvW with
      GEMINI_SYSTEM_MD := some "/custom/prompt.md"
      GEMINI_WRITE_SYSTEM_MD := some "true"
      fileExists := fun p => p == "/custom/prompt.md"
      readFile := fun _ => "CUSTOM CONTENT" }

/-- The C4 claim as stated: the override switch is decided by the raw
`GEMINI_SYSTEM_MD` value — unset, `'0'` or `'false'` disables the
override; `'1'` or `'true'` enables it with the default path; and any
other value is itself used (resolved) as the custom override file path.
Stated from the claim's words for comparison with `systemMdState`. -/
def c4Statement (env : PromptEnv) : Prop :=
  ((env.GEMINI_SYSTEM_MD = none ∨ env.GEMINI_SYSTEM_MD = some "0"
      ∨ env.GEMINI_SYSTEM_MD = some "false") →
    (systemMdState env).1 = false)
  ∧ ((env.GEMINI_SYSTEM_MD = some "1" ∨ env.GEMINI_SYSTEM_MD = some "true") →
    systemMdState env = (true, defaultSystemMdPath env))
  ∧ (∀ raw, env.GEMINI_SYSTEM_MD = some raw →
      raw ∉ (["0", "false", "1", "true"] : List String) →
      systemMdState env = (true, env.resolve raw))

/-! ## Helper lemmas -/

theorem infix_of_infix_left {α : Type} {x l₁ : List α} (l₂ : List α)
    (h : x <:+: l₁) : x <:+: l₁ ++ l₂ := by
  rcases h with ⟨s, t, rfl⟩
  exact ⟨s, t ++ l₂, by simp⟩

theorem infix_of_infix_right {α : Type} {x l₂ : List α} (l₁ : List α)
    (h : x <:+: l₂) : x <:+: l₁ ++ l₂ := by
  rcases h with ⟨s, t, rfl⟩
  exact ⟨l₁ ++ s, t, by simp⟩

/-- Every joined element occurs verbatim inside `jsJoin sep l`. -/
theorem jsJoin_mem_occurs (sep : String) :
    ∀ (l : List String) (d : String), d ∈ l → d.data <:+: (jsJoin sep l).data
  | [x], d, h => by
    rcases List.mem_singleton.mp h with rfl
    simp [jsJoin]
  | x :: y :: rest, d, h => by
    rcases List.mem_cons.mp h with rfl | h2
    · refine ⟨[], (sep ++ jsJoin sep (y :: rest)).data, ?_⟩
      simp [jsJoin, String.data_append]
    · have ih := jsJoin_mem_occurs sep (y :: rest) d h2
      have : (jsJoin sep (x :: y :: rest)).data
          = (x.data ++ sep.data) ++ (jsJoin sep (y :: rest)).data := by
        simp [jsJoin, String.data_append]
      rw [this]
      exact infix_of_infix_right _ ih

/-! ## Claim C1 -/

/-- C1: `validateToolParams` checks the parameters in order, short-circuiting
on the first failure: schema conformance first (its error is returned
whatever the path looks like), then syntactic absoluteness of
`absolute_path` (error message containing "absolute"), then workspace
containment (error message containing the joined list of permitted
workspace directories, hence each directory), then the ignore policy
(error message containing ".geminiignore"); when all four checks pass it
returns `none` (`null`). Invalid input is always an error value of the
total function, never an exception. -/
theorem C1_validateToolParams_checks (env : ToolEnv) (params : SummarizeFileToolParams) :
    (∀ e, env.schemaValidate params = some e →
      SummarizeFileTool.validateToolParams env params = some e)
    ∧ (env.schemaValidate params = none →
        env.isAbsolute params.absolute_path = false →
        SummarizeFileTool.validateToolParams env params
          = some ("File path must be absolute, but was relative: " ++ params.absolute_path
              ++ ". You must provide an absolute path.")
        ∧ ("absolute" : String).data <:+:
            ("File path must be absolute, but was relative: " ++ params.absolute_path
              ++ ". You must provide an absolute path.").data)
    ∧ (env.schemaValidate params = none →
        env.isAbsolute params.absolute_path = true →
        env.isPathWithinWorkspace params.absolute_path = false →
        SummarizeFileTool.validateToolParams env params
          = some ("File path must be within one of the workspace directories: "
              ++ jsJoin ", " env.getDirectories)
        ∧ ∀ d ∈ env.getDirectories, d.data <:+:
            ("File path must be within one of the workspace directories: "
              ++ jsJoin ", " env.getDirectories).data)
    ∧ (env.schemaValidate params = none →
        env.isAbsolute params.absolute_path = true →
        env.isPathWithinWorkspace params.absolute_path = true →
        env.shouldGeminiIgnoreFile params.absolute_path = true →
        SummarizeFileTool.validateToolParams env params
          = some ("File path '" ++ params.absolute_path
              ++ "' is ignored by .geminiignore pattern(s).")
        ∧ (".geminiignore" : String).data <:+:
            ("File path '" ++ params.absolute_path
              ++ "' is ignored by .geminiignore pattern(s).").data)
    ∧ (env.schemaValidate params = none →
        env.isAbsolute params.absolute_path = true →
        env.isPathWithinWorkspace params.absolute_path = true →
        env.shouldGeminiIgnoreFile params.absolute_path = false →
        SummarizeFileTool.validateToolParams env params = none) := by
  refine ⟨?_, ?_, ?_, ?_, ?_⟩
  · intro e he
    simp [SummarizeFileTool.validateToolParams, he]
  · intro hs ha
    refine ⟨by simp [SummarizeFileTool.validateToolParams, hs, ha], ?_⟩
    have h1 : ("absolute" : String).data <:+:
        ("File path must be absolute, but was relative: " : String).data := by decide
    have h2 : ("File path must be absolute, but was relative: " ++ params.absolute_path
        ++ ". You must provide an absolute path.").data
        = (("File path must be absolute, but was relative: " : String).data
            ++ params.absolute_path.data)
          ++ (". You must provide an absolute path." : String).data := by
      simp [String.data_append]
    rw [h2]
    exact infix_of_infix_left _ (infix_of_infix_left _ h1)
  · intro hs ha hw
    refine ⟨by simp [SummarizeFileTool.validateToolParams, hs, ha, hw], ?_⟩
    intro d hd
    have h2 : ("File path must be within one of the workspace directories: "
        ++ jsJoin ", " env.getDirectories).data
        = ("File path must be within one of the workspace directories: " : String).data
          ++ (jsJoin ", " env.getDirectories).data := by
      simp [String.data_append]
    rw [h2]
    exact infix_of_infix_right _ (jsJoin_mem_occurs ", " env.getDirectories d hd)
  · intro hs ha hw hi
    refine ⟨by simp [SummarizeFileTool.validateToolParams, hs, ha, hw, hi], ?_⟩
    have h1 : (".geminiignore" : String).data <:+:
        ("' is ignored by .geminiignore pattern(s)." : String).data := by decide
    have h2 : ("File path '" ++ params.absolute_path
        ++ "' is ignored by .geminiignore pattern(s).").data
        = (("File path '" : String).data ++ params.absolute_path.data)
          ++ ("' is ignored by .geminiignore pattern(s)." : String).data := by
      simp [String.data_append]
    rw [h2]
    exact infix_of_infix_right _ h1
  · intro hs ha hw hi
    simp [SummarizeFileTool.validateToolParams, hs, ha, hw, hi]

theorem jsOrEmptyContent_str (t : String) :
    jsOrEmptyContent (PartUnion.str t) = PartUnion.str t := by
  simp only [jsOrEmptyContent]
  split <;> simp_all

/-! ## Claim C2 -/

/-- C2: when `execute` is called with a truthy `name_only` on parameters that
pass validation, content acquisition is never invoked (call count 0), no
metric is recorded, no backend call is made, and the machine-readable
content is exactly the three-line string
`File: <relative path>\nName: <base name>\nExtension: <extension>`. -/
theorem C2_execute_name_only (env : ToolEnv) (params : SummarizeFileToolParams)
    (hv : SummarizeFileTool.validateToolParams env params = none)
    (hn : jsTruthyOpt params.name_only = true) :
    SummarizeFileTool.execute env params =
      { result :=
          { llmContent :=
              PartUnion.str ("File: "
                ++ env.makeRelative params.absolute_path env.getTargetDir
                ++ "\nName: " ++ env.basename params.absolute_path
                ++ "\nExtension: " ++ env.extname params.absolute_path)
            returnDisplay := "File info: " ++ env.basename params.absolute_path }
        acquisitionCalls := 0
        metrics := []
        backendCalls := 0 } := by
  simp [SummarizeFileTool.execute, hv, hn]

/-! ## Claim C9 -/

/-- C9: when both `name_only: true` and `snippets: true` are passed (and the
parameters validate), `name_only` takes precedence: the outcome is exactly
the metadata fast-path result — no content acquisition, no metric, and the
content is the plain three-line metadata string, in which no snippet
provenance header was inserted (the snippet-prefixing branch is never
reached, so the `snippets` flag is ignored). -/
theorem C9_name_only_precedence (env : ToolEnv) (params : SummarizeFileToolParams)
    (hv : SummarizeFileTool.validateToolParams env params = none)
    (hn : params.name_only = some true)
    (hs : params.snippets = some true) :
    SummarizeFileTool.execute env params =
      { result :=
          { llmContent :=
              PartUnion.str ("File: "
                ++ env.makeRelative params.absolute_path env.getTargetDir
                ++ "\nName: " ++ env.basename params.absolute_path
                ++ "\nExtension: " ++ env.extname params.absolute_path)
            returnDisplay := "File info: " ++ env.basename params.absolute_path }
        acquisitionCalls := 0
        metrics := []
        backendCalls := 0 } := by
  simp [SummarizeFileTool.execute, hv, hn, jsTruthyOpt]

/-! ## Claim C3 -/

/-- C3: the file-operation metric is emitted exactly once per `execute` call
when content acquisition succeeds — as a read operation carrying a line
count exactly when the acquired content is textual, the detected MIME type
and the file extension — and zero times when validation fails, when
`name_only` is truthy, or when acquisition reports a (truthy) error; in
the acquisition-error case the error string is passed through unchanged as
the returned machine-readable content. -/
theorem C3_metric_emission (env : ToolEnv) (params : SummarizeFileToolParams) :
    (∀ e, SummarizeFileTool.validateToolParams env params = some e →
      (SummarizeFileTool.execute env params).metrics = []
      ∧ (SummarizeFileTool.execute env params).acquisitionCalls = 0)
    ∧ (SummarizeFileTool.validateToolParams env params = none →
        jsTruthyOpt params.name_only = true →
        (SummarizeFileTool.execute env params).metrics = []
        ∧ (SummarizeFileTool.execute env params).acquisitionCalls = 0)
    ∧ (SummarizeFileTool.validateToolParams env params = none →
        jsTruthyOpt params.name_only = false →
        jsTruthyStrOpt (env.processSingleFileContent params.absolute_path
            env.getTargetDir none none params.snippets).error = true →
        (SummarizeFileTool.execute env params).metrics = []
        ∧ (SummarizeFileTool.execute env params).result.llmContent
            = PartUnion.str ((env.processSingleFileContent params.absolute_path
                env.getTargetDir none none params.snippets).error.getD ""))
    ∧ (SummarizeFileTool.validateToolParams env params = none →
        jsTruthyOpt params.name_only = false →
        jsTruthyStrOpt (env.processSingleFileContent params.absolute_path
            env.getTargetDir none none params.snippets).error = false →
        (SummarizeFileTool.execute env params).metrics
          = [{ operation := FileOperation.read
               lines :=
                 match (env.processSingleFileContent params.absolute_path
                     env.getTargetDir none none params.snippets).llmContent with
                 | PartUnion.str s => some (jsSplit '\n' s).length
                 | _ => none
               mimetype := env.getSpecificMimeType params.absolute_path
               extension := env.extname params.absolute_path }]) := by
  refine ⟨?_, ?_, ?_, ?_⟩
  · intro e he
    simp [SummarizeFileTool.execute, he]
  · intro hv hn
    simp [SummarizeFileTool.execute, hv, hn]
  · intro hv hn he
    simp [SummarizeFileTool.execute, hv, hn, he]
  · intro hv hn he
    simp [SummarizeFileTool.execute, hv, hn, he]

/-! ## Claim C6 -/

/-- C6: on a successful acquisition of textual content, `execute` in snippets
mode returns the acquired content prefixed with a provenance header naming
the relative path; with snippets off it returns the acquired content
directly; in both cases no content-generation backend call is made (this
tool variant never performs one). -/
theorem C6_snippets_header (env : ToolEnv) (params : SummarizeFileToolParams) (s : String)
    (hv : SummarizeFileTool.validateToolParams env params = none)
    (hn : jsTruthyOpt params.name_only = false)
    (he : jsTruthyStrOpt (env.processSingleFileContent params.absolute_path
        env.getTargetDir none none params.snippets).error = false)
    (hc : (env.processSingleFileContent params.absolute_path
        env.getTargetDir none none params.snippets).llmContent = PartUnion.str s) :
    (jsTruthyOpt params.snippets = true →
      (SummarizeFileTool.execute env params).result.llmContent
        = PartUnion.str ("[Relevant snippets from "
            ++ env.makeRelative params.absolute_path env.getTargetDir
            ++ "]\n\n" ++ s))
    ∧ (jsTruthyOpt params.snippets = false →
      (SummarizeFileTool.execute env params).result.llmContent = PartUnion.str s)
    ∧ (SummarizeFileTool.execute env params).backendCalls = 0 := by
  refine ⟨?_, ?_, ?_⟩
  · intro hsnip
    simp [SummarizeFileTool.execute, hv, hn, he, hc, hsnip, jsOrEmptyContent_str]
  · intro hsnip
    simp [SummarizeFileTool.execute, hv, hn, he, hc, hsnip, jsOrEmptyContent_str]
  · simp [SummarizeFileTool.execute, hv, hn, he]

/-! ## Prompt assembly lemmas -/

/-- Trimming the template: a leading and a trailing newline around a body
that starts with `Y` and ends with `.` are removed and nothing else. -/
theorem jsTrim_wrap (m : String) :
    jsTrim ("\n" ++ ("Y" ++ m ++ ".") ++ "\n") = "Y" ++ m ++ "." := by
  cases m with
  | mk l =>
    have hw : Char.isWhitespace '\n' = true := by decide
    have hY : Char.isWhitespace 'Y' = false := by decide
    have hdot : Char.isWhitespace '.' = false := by decide
    show jsTrim ⟨'\n' :: 'Y' :: (l ++ ['.'] ++ ['\n'])⟩ = ⟨'Y' :: (l ++ ['.'])⟩
    simp [jsTrim, List.dropWhile_cons, hw, hY, hdot, List.reverse_append]

/-- The built-in base prompt is the untrimmed body: the head (mandates,
workflows, guidelines, sandbox fragment), the conditional git-repository
fragment, the examples, the conditional git example closing line and the
tail. -/
theorem builtinBasePrompt_eq (env : PromptEnv) :
    builtinBasePrompt env =
      "Y" ++ (promptHead env
        ++ (if env.cwdIsGitRepo then gitRepositoryFragment else "")
        ++ promptExamples env
        ++ (if env.cwdIsGitRepo then gitExampleClosing else "")
        ++ promptTail) ++ "." :=
  jsTrim_wrap _

/-- With the override disabled, `getCoreSystemPrompt` returns the built-in
base prompt plus the memory suffix, together with the write events. -/
theorem getCoreSystemPrompt_disabled (env : PromptEnv) (mem : Option String)
    (h : (systemMdState env).1 = false) :
    getCoreSystemPrompt env mem =
      Except.ok (builtinBasePrompt env ++ memorySuffix mem,
        writeSystemMdEvents env (systemMdState env).2 (builtinBasePrompt env)) := by
  simp [getCoreSystemPrompt, h]

/-- With the override enabled and the file present, `getCoreSystemPrompt`
returns the file contents plus the memory suffix. -/
theorem getCoreSystemPrompt_enabled (env : PromptEnv) (mem : Option String)
    (h : (systemMdState env).1 = true)
    (hex : env.fileExists (systemMdState env).2 = true) :
    getCoreSystemPrompt env mem =
      Except.ok (env.readFile (systemMdState env).2 ++ memorySuffix mem,
        writeSystemMdEvents env (systemMdState env).2
          (env.readFile (systemMdState env).2)) := by
  simp [getCoreSystemPrompt, h, hex]

/-! ## Claim C5 -/

/-- C5: with the override enabled and the override file absent,
`getCoreSystemPrompt` fails fatally — the thrown process-level error is
modelled as `Except.error`, so no prompt value is returned; with the file
present, the returned prompt is the file's verbatim contents followed by
the unchanged memory-suffix logic. -/
theorem C5_override_missing_or_present (env : PromptEnv) (mem : Option String)
    (h : (systemMdState env).1 = true) :
    (env.fileExists (systemMdState env).2 = false →
      getCoreSystemPrompt env mem =
        Except.error ("missing system prompt file '" ++ (systemMdState env).2 ++ "'"))
    ∧ (env.fileExists (systemMdState env).2 = true →
      (getCoreSystemPrompt env mem).map Prod.fst =
        Except.ok (env.readFile (systemMdState env).2 ++ memorySuffix mem)) := by
  constructor
  · intro hex
    simp [getCoreSystemPrompt, h, hex]
  · intro hex
    simp [getCoreSystemPrompt, h, hex, Except.map]

/-! ## Claim C4 -/

/-- C4 counterexample: with `GEMINI_SYSTEM_MD = "FALSE"` the claim as stated
predicts the override is enabled with `"FALSE"` as the custom path, but
the code lowercases the value first, so `"FALSE"` disables the override:
the claim as stated is false on this concrete environment. -/
theorem C4_counterexample : ¬ c4Statement promptEnvC4 := by
  intro h
  have h3 := h.2.2 "FALSE" rfl (by decide)
  have hactual : systemMdState promptEnvC4 = (false, ".qwen/system.md") := by decide
  rw [hactual] at h3
  simp at h3

/-- C4 (amended): the override switch is tri-state on the lowercased value of
`GEMINI_SYSTEM_MD` — when it is unset, or lowercases to the empty string,
`'0'` or `'false'`, the override is disabled and the built-in base
template is used; when it lowercases to `'1'` or `'true'`, the override is
enabled with the default well-known path; for any other value the
lowercased value (resolved) is used as the custom override file path. -/
theorem C4_tristate_switch (env : PromptEnv) (mem : Option String) :
    ((env.GEMINI_SYSTEM_MD = none
        ∨ (∃ raw, env.GEMINI_SYSTEM_MD = some raw
            ∧ jsToLowerCase raw ∈ (["", "0", "false"] : List String))) →
      systemMdState env = (false, defaultSystemMdPath env)
      ∧ (getCoreSystemPrompt env mem).map Prod.fst =
          Except.ok (builtinBasePrompt env ++ memorySuffix mem))
    ∧ (∀ raw, env.GEMINI_SYSTEM_MD = some raw →
        jsToLowerCase raw ∈ (["1", "true"] : List String) →
        systemMdState env = (true, defaultSystemMdPath env))
    ∧ (∀ raw, env.GEMINI_SYSTEM_MD = some raw →
        jsToLowerCase raw ∉ (["", "0", "false", "1", "true"] : List String) →
        systemMdState env = (true, env.resolve (jsToLowerCase raw))) := by
  refine ⟨?_, ?_, ?_⟩
  · intro h
    have hst : systemMdState env = (false, defaultSystemMdPath env) := by
      rcases h with h | ⟨raw, hraw, hmem⟩
      · simp [systemMdState, h]
      · simp only [List.mem_cons, List.not_mem_nil, or_false] at hmem
        rcases hmem with h1 | h1 | h1 <;>
          simp [systemMdState, hraw, h1]
    refine ⟨hst, ?_⟩
    rw [getCoreSystemPrompt_disabled env mem (by rw [hst])]
    rfl
  · intro raw hraw hmem
    simp only [List.mem_cons, List.not_mem_nil, or_false] at hmem
    have hne : ¬ jsToLowerCase raw = "" := by
      rcases hmem with h1 | h1 <;> simp [h1]
    have hne0 : ¬ (jsToLowerCase raw = "0" ∨ jsToLowerCase raw = "false") := by
      rcases hmem with h1 | h1 <;> simp [h1]
    rcases hmem with h1 | h1 <;>
      simp [systemMdState, hraw, hne, hne0, h1]
  · intro raw hraw hmem
    simp only [List.mem_cons, List.not_mem_nil, or_false, not_or] at hmem
    obtain ⟨h0, h1, h2, h3, h4⟩ := hmem
    simp [systemMdState, hraw, h0, h1, h2, h3, h4]

/-! ## Claim C7 -/

/-- C7: with the override disabled and everything else in the environment
held fixed, inclusion of the git-conditioned content in the output of
`getCoreSystemPrompt` is a pure function of the git-repository predicate:
there are strings `P`, `M`, `S` (independent of the predicate) such that
the output with the predicate true is `P ++ gitRepositoryFragment ++ M ++
gitExampleClosing ++ S` and the output with the predicate false is
`P ++ M ++ S` — toggling the predicate toggles the presence of exactly the
git-context fragment and the git-conditioned example closing line (the two
code sites guarded by `isGitRepository(process.cwd())`) and changes
nothing else. -/
theorem C7_git_fragment_pure_toggle (env : PromptEnv) (mem : Option String)
    (hoff : (systemMdState env).1 = false) :
    ∃ P M S : String,
      (getCoreSystemPrompt { env with cwdIsGitRepo := true } mem).map Prod.fst
        = Except.ok (P ++ gitRepositoryFragment ++ M ++ gitExampleClosing ++ S)
      ∧ (getCoreSystemPrompt { env with cwdIsGitRepo := false } mem).map Prod.fst
        = Except.ok (P ++ M ++ S) := by
  have hT : (systemMdState { env with cwdIsGitRepo := true }).1 = false := hoff
  have hF : (systemMdState { env with cwdIsGitRepo := false }).1 = false := hoff
  refine ⟨"Y" ++ promptHead env, promptExamples env,
    promptTail ++ "." ++ memorySuffix mem, ?_, ?_⟩
  · rw [getCoreSystemPrompt_disabled _ mem hT, builtinBasePrompt_eq]
    have hph : promptHead { env with cwdIsGitRepo := true } = promptHead env := rfl
    have hpe : promptExamples { env with cwdIsGitRepo := true } = promptExamples env := rfl
    simp only [Except.map, hph, hpe, if_true]
    simp [String.append_assoc]
  · rw [getCoreSystemPrompt_disabled _ mem hF, builtinBasePrompt_eq]
    have hph : promptHead { env with cwdIsGitRepo := false } = promptHead env := rfl
    have hpe : promptExamples { env with cwdIsGitRepo := false } = promptExamples env := rfl
    simp only [Except.map, hph, hpe, if_false]
    simp [String.append_assoc]

/-! ## Claim C8 -/

/-- C8: with the write switch set to a truthy `'1'`/`'true'` value (and the
read override off), `getCoreSystemPrompt` writes the assembled built-in
base template to the target path as its only write side effect, without
altering the returned prompt (identical to the run with the write switch
unset); and the round trip holds: rebuilding with the read switch pointed
at the same path, with the file now existing and holding the written
content, reproduces the byte-identical prompt text (the memory suffix
logic being the same on both runs). -/
theorem C8_write_switch_roundtrip (env : PromptEnv) (mem : Option String) (w : String)
    (hw : env.GEMINI_WRITE_SYSTEM_MD = some w)
    (hwv : jsToLowerCase w = "1" ∨ jsToLowerCase w = "true")
    (hoff : (systemMdState env).1 = false) :
    (getCoreSystemPrompt env mem =
      Except.ok (builtinBasePrompt env ++ memorySuffix mem,
        [((systemMdState env).2, builtinBasePrompt env)]))
    ∧ ((getCoreSystemPrompt env mem).map Prod.fst
        = (getCoreSystemPrompt { env with GEMINI_WRITE_SYSTEM_MD := none } mem).map Prod.fst)
    ∧ (∀ env₂ : PromptEnv,
        (systemMdState env₂).1 = true →
        (systemMdState env₂).2 = (systemMdState env).2 →
        env₂.fileExists (systemMdState env).2 = true →
        env₂.readFile (systemMdState env).2 = builtinBasePrompt env →
        (getCoreSystemPrompt env₂ mem).map Prod.fst =
          Except.ok (builtinBasePrompt env ++ memorySuffix mem)) := by
  refine ⟨?_, ?_, ?_⟩
  · rw [getCoreSystemPrompt_disabled env mem hoff]
    rcases hwv with h | h <;> simp [writeSystemMdEvents, hw, h]
  · have hoff2 : (systemMdState { env with GEMINI_WRITE_SYSTEM_MD := none }).1 = false := hoff
    rw [getCoreSystemPrompt_disabled env mem hoff,
      getCoreSystemPrompt_disabled _ mem hoff2]
    rfl
  · intro env₂ h1 h2 h3 h4
    rw [getCoreSystemPrompt_enabled env₂ mem h1 (by rw [h2]; exact h3)]
    simp only [Except.map]
    rw [h2, h4]

/-! ## Claim C10 -/

/-- C10: when the write switch `GEMINI_WRITE_SYSTEM_MD` is `'1'`/`'true'`
while the read switch `GEMINI_SYSTEM_MD` holds a custom (non-`'1'`/
`'true'`) enabling value, the single write performed by
`getCoreSystemPrompt` targets the custom read-override path
(`path.resolve` of the lowercased read-switch value) — the write target
tracks the read-override path rather than an independent fixed default
location — and the written content is the assembled base prompt (here the
override file's contents). -/
theorem C10_write_target_tracks_read_override (env : PromptEnv) (mem : Option String)
    (raw w : String)
    (hr : env.GEMINI_SYSTEM_MD = some raw)
    (hen : (systemMdState env).1 = true)
    (hcustom : ¬ (jsToLowerCase raw = "1" ∨ jsToLowerCase raw = "true"))
    (hw : env.GEMINI_WRITE_SYSTEM_MD = some w)
    (hwv : jsToLowerCase w = "1" ∨ jsToLowerCase w = "true")
    (hex : env.fileExists (env.resolve (jsToLowerCase raw)) = true) :
    getCoreSystemPrompt env mem =
      Except.ok (env.readFile (env.resolve (jsToLowerCase raw)) ++ memorySuffix mem,
        [(env.resolve (jsToLowerCase raw),
          env.readFile (env.resolve (jsToLowerCase raw)))]) := by
  have hv1 : ¬ jsToLowerCase raw = "" := by
    intro h
    simp [systemMdState, hr, h] at hen
  have hv2 : ¬ (jsToLowerCase raw = "0" ∨ jsToLowerCase raw = "false") := by
    intro h
    simp [systemMdState, hr, hv1, h] at hen
  have hst : systemMdState env = (true, env.resolve (jsToLowerCase raw)) := by
    simp [systemMdState, hr, hv1, hv2, hcustom]
  rw [getCoreSystemPrompt_enabled env mem (by rw [hst]) (by rw [hst]; exact hex), hst]
  rcases hwv with h | h <;> simp [writeSystemMdEvents, hw, h]

/-! ## Witnesses -/

/-- C1 witness: a relative path is rejected with the "absolute" message. -/
theorem C1_witness :
    toolEnvW.schemaValidate
        { absolute_path := "rel.txt", snippets := none, name_only := none } = none
    ∧ toolEnvW.isAbsolute "rel.txt" = false
    ∧ (SummarizeFileTool.validateToolParams toolEnvW
          { absolute_path := "rel.txt", snippets := none, name_only := none }
        = some ("File path must be absolute, but was relative: " ++ "rel.txt"
            ++ ". You must provide an absolute path.")
      ∧ ("absolute" : String).data <:+:
          ("File path must be absolute, but was relative: " ++ "rel.txt"
            ++ ". You must provide an absolute path.").data) :=
  ⟨by decide, by decide,
    (C1_validateToolParams_checks toolEnvW
      { absolute_path := "rel.txt", snippets := none, name_only := none }).2.1
      (by decide) (by decide)⟩

/-- C2 witness: the metadata fast path on a concrete valid file. -/
theorem C2_witness :
    SummarizeFileTool.validateToolParams toolEnvW
        { absolute_path := "/ws/a.txt", snippets := none, name_only := some true } = none
    ∧ jsTruthyOpt (some true) = true
    ∧ SummarizeFileTool.execute toolEnvW
        { absolute_path := "/ws/a.txt", snippets := none, name_only := some true }
      = { result :=
            { llmContent :=
                PartUnion.str ("File: " ++ toolEnvW.makeRelative "/ws/a.txt" toolEnvW.getTargetDir
                  ++ "\nName: " ++ toolEnvW.basename "/ws/a.txt"
                  ++ "\nExtension: " ++ toolEnvW.extname "/ws/a.txt")
              returnDisplay := "File info: " ++ toolEnvW.basename "/ws/a.txt" }
          acquisitionCalls := 0
          metrics := []
          backendCalls := 0 } :=
  ⟨by decide, by decide,
    C2_execute_name_only toolEnvW
      { absolute_path := "/ws/a.txt", snippets := none, name_only := some true }
      (by decide) (by decide)⟩

/-- C3 witness: the success path records exactly one read metric with the
line count of the textual content. -/
theorem C3_witness :
    SummarizeFileTool.validateToolParams toolEnvW
        { absolute_path := "/ws/a.txt", snippets := none, name_only := none } = none
    ∧ jsTruthyOpt (none : Option Bool) = false
    ∧ jsTruthyStrOpt (toolEnvW.processSingleFileContent "/ws/a.txt" toolEnvW.getTargetDir
        none none none).error = false
    ∧ (SummarizeFileTool.execute toolEnvW
        { absolute_path := "/ws/a.txt", snippets := none, name_only := none }).metrics
      = [{ operation := FileOperation.read
           lines :=
             match (toolEnvW.processSingleFileContent "/ws/a.txt" toolEnvW.getTargetDir
                 none none none).llmContent with
             | PartUnion.str s => some (jsSplit '\n' s).length
             | _ => none
           mimetype := toolEnvW.getSpecificMimeType "/ws/a.txt"
           extension := toolEnvW.extname "/ws/a.txt" }] :=
  ⟨by decide, by decide, by decide,
    (C3_metric_emission toolEnvW
      { absolute_path := "/ws/a.txt", snippets := none, name_only := none }).2.2.2
      (by decide) (by decide) (by decide)⟩

/-- C6 witness: the provenance header on a concrete snippets-mode read. -/
theorem C6_witness :
    SummarizeFileTool.validateToolParams toolEnvW
        { absolute_path := "/ws/a.txt", snippets := some true, name_only := none } = none
    ∧ jsTruthyOpt (some true) = true
    ∧ (SummarizeFileTool.execute toolEnvW
        { absolute_path := "/ws/a.txt", snippets := some true, name_only := none
          }).result.llmContent
      = PartUnion.str ("[Relevant snippets from "
          ++ toolEnvW.makeRelative "/ws/a.txt" toolEnvW.getTargetDir
          ++ "]\n\n" ++ "line one\nline two") :=
  ⟨by decide, by decide,
    (C6_snippets_header toolEnvW
      { absolute_path := "/ws/a.txt", snippets := some true, name_only := none }
      "line one\nline two" (by decide) (by decide) (by decide) (by decide)).1 (by decide)⟩

/-- C9 witness: with both flags set, the outcome is the metadata fast path. -/
theorem C9_witness :
    SummarizeFileTool.validateToolParams toolEnvW
        { absolute_path := "/ws/a.txt", snippets := some true, name_only := some true } = none
    ∧ SummarizeFileTool.execute toolEnvW
        { absolute_path := "/ws/a.txt", snippets := some true, name_only := some true }
      = { result :=
            { llmContent :=
                PartUnion.str ("File: " ++ toolEnvW.makeRelative "/ws/a.txt" toolEnvW.getTargetDir
                  ++ "\nName: " ++ toolEnvW.basename "/ws/a.txt"
                  ++ "\nExtension: " ++ toolEnvW.extname "/ws/a.txt")
              returnDisplay := "File info: " ++ toolEnvW.basename "/ws/a.txt" }
          acquisitionCalls := 0
          metrics := []
          backendCalls := 0 } :=
  ⟨by decide,
    C9_name_only_precedence toolEnvW
      { absolute_path := "/ws/a.txt", snippets := some true, name_only := some true }
      (by decide) rfl rfl⟩

/-- C4 witness (amended claim): a custom lowercase path value enables the
override at the resolved lowercased value. -/
theorem C4_witness :
    jsToLowerCase "/custom/sys.md" ∉ (["", "0", "false", "1", "true"] : List String)
    ∧ systemMdState promptEnvC4custom
      = (true, promptEnvC4custom.resolve (jsToLowerCase "/custom/sys.md")) :=
  ⟨by decide,
    (C4_tristate_switch promptEnvC4custom none).2.2 "/custom/sys.md" rfl (by decide)⟩

/-- C5 witness: override enabled at the default path with no file present
fails with the `missing system prompt file` error. -/
theorem C5_witness :
    (systemMdState promptEnvC5).1 = true
    ∧ promptEnvC5.fileExists (systemMdState promptEnvC5).2 = false
    ∧ getCoreSystemPrompt promptEnvC5 none
      = Except.error ("missing system prompt file '" ++ (systemMdState promptEnvC5).2 ++ "'") :=
  ⟨by decide, rfl,
    (C5_override_missing_or_present promptEnvC5 none (by decide)).1 rfl⟩

/-- C7 witness: the decomposition at a concrete environment. -/
theorem C7_witness :
    ∃ P M S : String,
      (getCoreSystemPrompt { promptEnvW with cwdIsGitRepo := true } none).map Prod.fst
        = Except.ok (P ++ gitRepositoryFragment ++ M ++ gitExampleClosing ++ S)
      ∧ (getCoreSystemPrompt { promptEnvW with cwdIsGitRepo := false } none).map Prod.fst
        = Except.ok (P ++ M ++ S) :=
  C7_git_fragment_pure_toggle promptEnvW none rfl

/-- C8 witness: the write at a concrete environment, and the rebuild from
the written file reproducing the identical prompt. -/
theorem C8_witness :
    (getCoreSystemPrompt promptEnvC8 none =
      Except.ok (builtinBasePrompt promptEnvC8 ++ memorySuffix none,
        [((systemMdState promptEnvC8).2, builtinBasePrompt promptEnvC8)]))
    ∧ ((getCoreSystemPrompt promptEnvC8read none).map Prod.fst =
        Except.ok (builtinBasePrompt promptEnvC8 ++ memorySuffix none)) :=
  ⟨(C8_write_switch_roundtrip promptEnvC8 none "1" rfl (Or.inl (by decide)) rfl).1,
    (C8_write_switch_roundtrip promptEnvC8 none "1" rfl (Or.inl (by decide)) rfl).2.2
      promptEnvC8read (by decide) (by decide) (by decide) rfl⟩

/-- C10 witness: write switch `'true'` with a custom read override writes to
the custom path. -/
theorem C10_witness :
    getCoreSystemPrompt promptEnvC10 none =
      Except.ok (promptEnvC10.readFile (promptEnvC10.resolve (jsToLowerCase "/custom/prompt.md"))
          ++ memorySuffix none,
        [(promptEnvC10.resolve (jsToLowerCase "/custom/prompt.md"),
          promptEnvC10.readFile (promptEnvC10.resolve (jsToLowerCase "/custom/prompt.md")))]) :=
  C10_write_target_tracks_read_override promptEnvC10 none "/custom/prompt.md" "true"
    rfl (by decide) (by decide) rfl (Or.inr (by decide)) (by decide)
